import Mathlib

/-!
Verification of the jitterbug retry/backoff/jitter library.

Shallow embedding of the core of the library: the five pure jitter
calculators (src/jitter.ts), the backoff calculator, the jitter
dispatcher `applyJitter`, and the retry loop (src/retry.ts).

Numbers are modelled as rationals.  Every call to the uniform random
source is threaded explicitly as a parameter `r` (the draw), so the
functions stay pure and every claim about "all draws" quantifies over
`r`.  The retry loop is modelled as a trace-producing function: the
trace records, in order, each invocation of the wrapped operation,
each observer callback, and each timed wait, together with the final
outcome (success value, or the captured error, or the uninitialized
error when the loop body never ran).
-/

namespace Jitterbug

/-- From src/jitter.ts, calculateFullJitter:
`Math.random() * (maxDelayMs - minDelayMs) + minDelayMs`
with the random draw `r` threaded explicitly. -/
def calculateFullJitter (minDelayMs maxDelayMs r : ℚ) : ℚ :=
  r * (maxDelayMs - minDelayMs) + minDelayMs

/-- From src/jitter.ts, calculateEqualJitter:
`halfDelay + Math.random() * halfDelay` where `halfDelay = baseDelayMs / 2`. -/
def calculateEqualJitter (baseDelayMs r : ℚ) : ℚ :=
  baseDelayMs / 2 + r * (baseDelayMs / 2)

/-- From src/jitter.ts, calculateFixedJitter:
`Math.max(0, maxDelayMs - jitterAmount)`.  Uses no random source. -/
def calculateFixedJitter (maxDelayMs jitterAmount : ℚ) : ℚ :=
  max 0 (maxDelayMs - jitterAmount)

/-- From src/jitter.ts, calculateRandomJitter:
`Math.max(0, baseDelayMs * (1 + (Math.random() * 2 - 1) * jitterFraction))`. -/
def calculateRandomJitter (baseDelayMs jitterFraction r : ℚ) : ℚ :=
  max 0 (baseDelayMs * (1 + (r * 2 - 1) * jitterFraction))

/-- From src/jitter.ts, calculateDecorrelatedJitter:
`upperDelayMs = Math.max(baseDelayMs, prevDelayMs * 3)` and the result is
`Math.min(maxDelayMs, baseDelayMs + Math.random() * (upperDelayMs - baseDelayMs))`. -/
def calculateDecorrelatedJitter (baseDelayMs maxDelayMs prevDelayMs r : ℚ) : ℚ :=
  min maxDelayMs (baseDelayMs + r * (max baseDelayMs (prevDelayMs * 3) - baseDelayMs))

/-- From src/retry.ts, calculateDelay.  The source is a switch over the
strategy string whose `fixed` arm is also the `default` arm, so any
unrecognized strategy string takes the `baseDelay` branch. -/
def calculateDelay (baseDelay : ℚ) (attempt : ℕ) (backoff : String) : ℚ :=
  if backoff = "exponential" then baseDelay * 2 ^ (attempt - 1)
  else if backoff = "linear" then baseDelay * (attempt : ℚ)
  else baseDelay

/-- From src/retry.ts, the JitterConfig tagged union. -/
inductive JitterConfig where
  | none
  | equal
  | full (min max : ℚ)
  | fixed (amount : ℚ)
  | random (fraction : ℚ)
  | decorrelated (maxDelay : ℚ)
deriving DecidableEq

/-- From src/retry.ts, applyJitter.  The source performs no validation of
the configuration: it returns 0 for an absent config or type none, and
otherwise dispatches directly to the matching calculator.  There is no
error path, so the embedding is a total function. -/
def applyJitter (baseDelay : ℚ) (jitter : Option JitterConfig) (prevDelay r : ℚ) : ℚ :=
  match jitter with
  | Option.none => 0
  | some JitterConfig.none => 0
  | some JitterConfig.equal => calculateEqualJitter baseDelay r
  | some (JitterConfig.full mn mx) => calculateFullJitter mn mx r
  | some (JitterConfig.fixed amount) => calculateFixedJitter baseDelay amount
  | some (JitterConfig.random fraction) => calculateRandomJitter baseDelay fraction r
  | some (JitterConfig.decorrelated maxDelay) =>
      calculateDecorrelatedJitter baseDelay maxDelay prevDelay r

/-- A value thrown (or rejected with) by the wrapped operation: either an
Error instance carrying a message, or a non-Error value identified by its
string representation. -/
inductive Thrown where
  | errorInst (message : String)
  | nonError (stringRep : String)
deriving DecidableEq

/-- An Error object as captured by the retry loop. -/
structure JSError where
  message : String
deriving DecidableEq

/-- From src/retry.ts:
`lastError = error instanceof Error ? error : new Error(String(error))`. -/
def normalizeError : Thrown → JSError
  | Thrown.errorInst m => JSError.mk m
  | Thrown.nonError s => JSError.mk s

/-- One observable event of a retry-loop run, in program order. -/
inductive RetryEvent where
  | call (attempt : ℕ)
  | observe (error : JSError) (attempt : ℕ) (waitMs : ℚ)
  | sleep (ms : ℚ)
deriving DecidableEq

/-- Whether an event is an invocation of the wrapped operation. -/
def RetryEvent.isCall : RetryEvent → Bool
  | RetryEvent.call _ => true
  | _ => false

/-- Whether an event is an onRetry observer callback. -/
def RetryEvent.isObserve : RetryEvent → Bool
  | RetryEvent.observe _ _ _ => true
  | _ => false

/-- Outcome and ordered event trace of one invocation of the wrapped
function.  `result` is `Except.error Option.none` when the loop exits
with `lastError` never assigned (the JS code then throws `undefined`),
and `Except.error (some e)` when the final throw rethrows the captured
error `e`. -/
structure RetryTrace (α : Type) where
  result : Except (Option JSError) α
  events : List RetryEvent

/-- The retry loop of src/retry.ts, one constructor per remaining loop
iteration.  `remaining` is `maxAttempts - attempt + 1`, so the JS loop
guard `attempt <= maxAttempts` is `remaining > 0`, and the inner guard
`attempt < maxAttempts` is `rem > 0` after peeling one iteration.  The
wrapped operation is modelled as `fn : ℕ → Except Thrown α`, giving the
outcome of the attempt with that 1-based index; `draw attempt` is the
random draw consumed by applyJitter on that attempt. -/
def retryGo (fn : ℕ → Except Thrown α) (delay : ℚ) (backoff : String)
    (jitterConfig : Option JitterConfig) (draw : ℕ → ℚ) :
    ℕ → ℕ → ℚ → Option JSError → RetryTrace α
  | _attempt, 0, _prevJitterDelay, lastError =>
      RetryTrace.mk (Except.error lastError) []
  | attempt, rem + 1, prevJitterDelay, _lastError =>
      match fn attempt with
      | Except.ok v => RetryTrace.mk (Except.ok v) [RetryEvent.call attempt]
      | Except.error e =>
          let lastError := normalizeError e
          if rem = 0 then
            RetryTrace.mk (Except.error (some lastError)) [RetryEvent.call attempt]
          else
            let waitTime := calculateDelay delay attempt backoff
            let jitterMs := applyJitter waitTime jitterConfig prevJitterDelay (draw attempt)
            let delayTimeMs := waitTime + jitterMs
            let t := retryGo fn delay backoff jitterConfig draw
              (attempt + 1) rem jitterMs (some lastError)
            RetryTrace.mk t.result
              (RetryEvent.call attempt ::
                RetryEvent.observe lastError attempt delayTimeMs ::
                RetryEvent.sleep delayTimeMs :: t.events)

/-- From src/retry.ts, retry: runs the loop from attempt 1 with
`prevJitterDelay = 0` and `lastError` uninitialized.  `maxAttempts` is an
integer, as the source never validates it; the loop body runs
`max 0 maxAttempts` times. -/
def retry (fn : ℕ → Except Thrown α) (maxAttempts : ℤ) (delay : ℚ) (backoff : String)
    (jitterConfig : Option JitterConfig) (draw : ℕ → ℚ) : RetryTrace α :=
  retryGo fn delay backoff jitterConfig draw 1 maxAttempts.toNat 0 Option.none

/-- C1 (evidence): applyJitter performs no validation and has no error
path; on the claimed-invalid configuration full with min 500 and max 100
(baseDelay 100, prevDelay 0, draw 0) it returns the number 500 instead of
throwing a descriptive error. -/
theorem applyJitter_invalid_full_returns_value :
    applyJitter 100 (some (JitterConfig.full 500 100)) 0 0 = 500 := by
  norm_num [applyJitter, calculateFullJitter]

/-- C4: for baseDelay b ≥ 0 and attempt n ≥ 1, calculateDelay returns
b * 2^(n-1) for exponential (so attempt 1 yields b unchanged), b * n for
linear, and b for fixed; any unrecognized strategy string behaves
identically to fixed, returning b without raising an error. -/
theorem calculateDelay_spec (b : ℚ) (n : ℕ) (hb : 0 ≤ b) (hn : 1 ≤ n) :
    calculateDelay b n "exponential" = b * 2 ^ (n - 1) ∧
    calculateDelay b 1 "exponential" = b ∧
    calculateDelay b n "linear" = b * n ∧
    calculateDelay b n "fixed" = b ∧
    (∀ s : String, s ≠ "exponential" → s ≠ "linear" →
      calculateDelay b n s = calculateDelay b n "fixed") := by
  refine ⟨by simp [calculateDelay], by simp [calculateDelay], ?_, ?_, ?_⟩
  · simp [calculateDelay]
  · simp [calculateDelay]
  · intro s h1 h2
    simp [calculateDelay, h1, h2]

/-- C4 witness at b = 7, n = 3. -/
theorem calculateDelay_spec_witness :
    (0 : ℚ) ≤ 7 ∧ 1 ≤ 3 ∧
    (calculateDelay 7 3 "exponential" = 7 * 2 ^ (3 - 1) ∧
     calculateDelay 7 1 "exponential" = 7 ∧
     calculateDelay 7 3 "linear" = 7 * (3 : ℕ) ∧
     calculateDelay 7 3 "fixed" = 7 ∧
     (∀ s : String, s ≠ "exponential" → s ≠ "linear" →
       calculateDelay 7 3 s = calculateDelay 7 3 "fixed")) :=
  ⟨by norm_num, by norm_num, calculateDelay_spec 7 3 (by norm_num) (by norm_num)⟩

/-- C6: for 0 ≤ b ≤ maxD, prev ≥ 0 and draw r ∈ [0,1),
calculateDecorrelatedJitter returns min maxD (b + r * (max b (prev*3) - b)),
lies in [b, min maxD (max b (prev*3))], clamps to maxD when the unclamped
value exceeds it; concretely prev=0, draw=0, b=1000 yields 1000, and
draw=1, b=1000, maxD=10000, prev=2000 yields 6000. -/
theorem calculateDecorrelatedJitter_spec (b maxD prev r : ℚ)
    (hb : 0 ≤ b) (hbm : b ≤ maxD) (hp : 0 ≤ prev) (hr0 : 0 ≤ r) (hr1 : r < 1) :
    calculateDecorrelatedJitter b maxD prev r
      = min maxD (b + r * (max b (prev * 3) - b)) ∧
    b ≤ calculateDecorrelatedJitter b maxD prev r ∧
    calculateDecorrelatedJitter b maxD prev r ≤ min maxD (max b (prev * 3)) ∧
    (maxD < b + r * (max b (prev * 3) - b) →
      calculateDecorrelatedJitter b maxD prev r = maxD) ∧
    calculateDecorrelatedJitter 1000 10000 0 0 = 1000 ∧
    calculateDecorrelatedJitter 1000 10000 2000 1 = 6000 := by
  have hUb : b ≤ max b (prev * 3) := le_max_left _ _
  refine ⟨rfl, ?_, ?_, ?_, ?_, ?_⟩
  · refine le_min hbm ?_
    nlinarith [mul_nonneg hr0 (sub_nonneg.mpr hUb)]
  · refine min_le_min (le_refl maxD) ?_
    nlinarith [mul_le_mul_of_nonneg_right hr1.le (sub_nonneg.mpr hUb)]
  · intro h
    exact min_eq_left h.le
  · norm_num [calculateDecorrelatedJitter]
  · norm_num [calculateDecorrelatedJitter]

/-- C6 witness at b = 1000, maxD = 10000, prev = 2000, r = 1/2. -/
theorem calculateDecorrelatedJitter_spec_witness :
    ((0 : ℚ) ≤ 1000 ∧ (1000 : ℚ) ≤ 10000 ∧ (0 : ℚ) ≤ 2000 ∧
      (0 : ℚ) ≤ 1/2 ∧ (1/2 : ℚ) < 1) ∧
    (calculateDecorrelatedJitter 1000 10000 2000 (1/2)
      = min 10000 (1000 + 1/2 * (max 1000 (2000 * 3) - 1000)) ∧
    (1000 : ℚ) ≤ calculateDecorrelatedJitter 1000 10000 2000 (1/2) ∧
    calculateDecorrelatedJitter 1000 10000 2000 (1/2)
      ≤ min 10000 (max 1000 (2000 * 3)) ∧
    ((10000 : ℚ) < 1000 + 1/2 * (max 1000 (2000 * 3) - 1000) →
      calculateDecorrelatedJitter 1000 10000 2000 (1/2) = 10000) ∧
    calculateDecorrelatedJitter 1000 10000 0 0 = 1000 ∧
    calculateDecorrelatedJitter 1000 10000 2000 1 = 6000) :=
  ⟨⟨by norm_num, by norm_num, by norm_num, by norm_num, by norm_num⟩,
    calculateDecorrelatedJitter_spec 1000 10000 2000 (1/2)
      (by norm_num) (by norm_num) (by norm_num) (by norm_num) (by norm_num)⟩

/-- C7: for 0 ≤ min < max and draw r ∈ [0,1), calculateFullJitter returns
min + r * (max - min), which lies in the half-open interval [min, max);
with draw 1/2, min = 200 and max = 400 it returns exactly 300. -/
theorem calculateFullJitter_spec (mn mx r : ℚ)
    (hmn : 0 ≤ mn) (hlt : mn < mx) (hr0 : 0 ≤ r) (hr1 : r < 1) :
    calculateFullJitter mn mx r = mn + r * (mx - mn) ∧
    mn ≤ calculateFullJitter mn mx r ∧
    calculateFullJitter mn mx r < mx ∧
    calculateFullJitter 200 400 (1/2) = 300 := by
  refine ⟨by unfold calculateFullJitter; ring, ?_, ?_, ?_⟩
  · unfold calculateFullJitter
    nlinarith
  · unfold calculateFullJitter
    nlinarith
  · norm_num [calculateFullJitter]

/-- C7 witness at min = 200, max = 400, r = 1/4. -/
theorem calculateFullJitter_spec_witness :
    ((0 : ℚ) ≤ 200 ∧ (200 : ℚ) < 400 ∧ (0 : ℚ) ≤ 1/4 ∧ (1/4 : ℚ) < 1) ∧
    (calculateFullJitter 200 400 (1/4) = 200 + 1/4 * (400 - 200) ∧
     (200 : ℚ) ≤ calculateFullJitter 200 400 (1/4) ∧
     calculateFullJitter 200 400 (1/4) < 400 ∧
     calculateFullJitter 200 400 (1/2) = 300) :=
  ⟨⟨by norm_num, by norm_num, by norm_num, by norm_num⟩,
    calculateFullJitter_spec 200 400 (1/4)
      (by norm_num) (by norm_num) (by norm_num) (by norm_num)⟩

/-- C8: for b ≥ 0, fraction f ∈ [0,1] and draw r ∈ [0,1),
calculateRandomJitter returns max 0 (b * (1 + (r*2 - 1) * f)), lies in
[b*(1-f), b*(1+f)] and is never negative; with draw 1, f = 1/2, b = 1000
it returns 1500, and with draw 0, f = 1/2, b = 1000 it returns 500. -/
theorem calculateRandomJitter_spec (b f r : ℚ)
    (hb : 0 ≤ b) (hf0 : 0 ≤ f) (hf1 : f ≤ 1) (hr0 : 0 ≤ r) (hr1 : r < 1) :
    calculateRandomJitter b f r = max 0 (b * (1 + (r * 2 - 1) * f)) ∧
    b * (1 - f) ≤ calculateRandomJitter b f r ∧
    calculateRandomJitter b f r ≤ b * (1 + f) ∧
    0 ≤ calculateRandomJitter b f r ∧
    calculateRandomJitter 1000 (1/2) 1 = 1500 ∧
    calculateRandomJitter 1000 (1/2) 0 = 500 := by
  refine ⟨rfl, ?_, ?_, le_max_left _ _, ?_, ?_⟩
  · refine le_max_of_le_right ?_
    nlinarith [mul_nonneg (mul_nonneg hb hr0) hf0]
  · refine max_le ?_ ?_
    · nlinarith
    · nlinarith [mul_nonneg (mul_nonneg hb hf0) (sub_nonneg.mpr hr1.le)]
  · norm_num [calculateRandomJitter]
  · norm_num [calculateRandomJitter]

/-- C8 witness at b = 1000, f = 1/2, r = 1/4. -/
theorem calculateRandomJitter_spec_witness :
    ((0 : ℚ) ≤ 1000 ∧ (0 : ℚ) ≤ 1/2 ∧ (1/2 : ℚ) ≤ 1 ∧
      (0 : ℚ) ≤ 1/4 ∧ (1/4 : ℚ) < 1) ∧
    (calculateRandomJitter 1000 (1/2) (1/4)
      = max 0 (1000 * (1 + (1/4 * 2 - 1) * (1/2))) ∧
     (1000 : ℚ) * (1 - 1/2) ≤ calculateRandomJitter 1000 (1/2) (1/4) ∧
     calculateRandomJitter 1000 (1/2) (1/4) ≤ 1000 * (1 + 1/2) ∧
     (0 : ℚ) ≤ calculateRandomJitter 1000 (1/2) (1/4) ∧
     calculateRandomJitter 1000 (1/2) 1 = 1500 ∧
     calculateRandomJitter 1000 (1/2) 0 = 500) :=
  ⟨⟨by norm_num, by norm_num, by norm_num, by norm_num, by norm_num⟩,
    calculateRandomJitter_spec 1000 (1/2) (1/4)
      (by norm_num) (by norm_num) (by norm_num) (by norm_num) (by norm_num)⟩

/-- C9: for b ≥ 0 and amount a ≥ 0, calculateFixedJitter returns exactly
max 0 (b - a), never negative even when a > b, and never exceeding b.
The function takes no random draw: it is deterministic. -/
theorem calculateFixedJitter_spec (b a : ℚ) (hb : 0 ≤ b) (ha : 0 ≤ a) :
    calculateFixedJitter b a = max 0 (b - a) ∧
    0 ≤ calculateFixedJitter b a ∧
    calculateFixedJitter b a ≤ b := by
  refine ⟨rfl, le_max_left _ _, ?_⟩
  exact max_le hb (sub_le_self b ha)

/-- Helper: a successful attempt ends the loop at once, emitting only the
call event for that attempt. -/
theorem retryGo_ok_step {α : Type} (fn : ℕ → Except Thrown α) (d : ℚ) (b : String)
    (jc : Option JitterConfig) (draw : ℕ → ℚ) (attempt rem : ℕ) (prev : ℚ)
    (le : Option JSError) (v : α) (hok : fn attempt = Except.ok v) :
    retryGo fn d b jc draw attempt (rem + 1) prev le
      = RetryTrace.mk (Except.ok v) [RetryEvent.call attempt] := by
  simp [retryGo, hok]

/-- Helper: a failed final attempt ends the loop, rethrowing the captured
error and emitting only the call event. -/
theorem retryGo_fail_last {α : Type} (fn : ℕ → Except Thrown α) (d : ℚ) (b : String)
    (jc : Option JitterConfig) (draw : ℕ → ℚ) (attempt : ℕ) (prev : ℚ)
    (le : Option JSError) (e : Thrown) (hfail : fn attempt = Except.error e) :
    retryGo fn d b jc draw attempt (0 + 1) prev le
      = RetryTrace.mk (Except.error (some (normalizeError e)))
          [RetryEvent.call attempt] := by
  simp [retryGo, hfail]

/-- Helper: a failed non-final attempt computes the backoff wait, the
additive jitter from (wait, config, previous jitter, draw), records the
call, the observer notification and the sleep for wait + jitter in that
order, and continues with the next attempt carrying the jitter amount as
the new previous jitter and the normalized error as the captured one. -/
theorem retryGo_fail_mid {α : Type} (fn : ℕ → Except Thrown α) (d : ℚ) (b : String)
    (jc : Option JitterConfig) (draw : ℕ → ℚ) (attempt rem : ℕ) (prev : ℚ)
    (le : Option JSError) (e : Thrown) (hfail : fn attempt = Except.error e)
    (hrem : rem ≠ 0) :
    retryGo fn d b jc draw attempt (rem + 1) prev le
      = RetryTrace.mk
          (retryGo fn d b jc draw (attempt + 1) rem
            (applyJitter (calculateDelay d attempt b) jc prev (draw attempt))
            (some (normalizeError e))).result
          (RetryEvent.call attempt ::
            RetryEvent.observe (normalizeError e) attempt
              (calculateDelay d attempt b +
                applyJitter (calculateDelay d attempt b) jc prev (draw attempt)) ::
            RetryEvent.sleep
              (calculateDelay d attempt b +
                applyJitter (calculateDelay d attempt b) jc prev (draw attempt)) ::
            (retryGo fn d b jc draw (attempt + 1) rem
              (applyJitter (calculateDelay d attempt b) jc prev (draw attempt))
              (some (normalizeError e))).events) := by
  simp [retryGo, hfail, hrem]

/-- C2: wrapping an operation that fails on its first two invocations and
succeeds on the third, with maxAttempts 5, invokes the operation exactly
3 times and returns the success value; and in general, whenever an
attempt succeeds the loop returns immediately with that result, emitting
no further attempt and no observer event for that attempt. -/
theorem retry_success_spec {α : Type} (fn : ℕ → Except Thrown α) (v : α)
    (e1 e2 : Thrown) (d : ℚ) (b : String) (jc : Option JitterConfig)
    (draw : ℕ → ℚ) (h1 : fn 1 = Except.error e1) (h2 : fn 2 = Except.error e2)
    (h3 : fn 3 = Except.ok v) :
    ((retry fn 5 d b jc draw).result = Except.ok v ∧
     ((retry fn 5 d b jc draw).events.filter RetryEvent.isCall).length = 3) ∧
    (∀ (g : ℕ → Except Thrown α) (attempt rem : ℕ) (prev : ℚ)
      (le : Option JSError) (w : α), g attempt = Except.ok w →
      retryGo g d b jc draw attempt (rem + 1) prev le
        = RetryTrace.mk (Except.ok w) [RetryEvent.call attempt]) := by
  constructor
  · have run : retry fn 5 d b jc draw = retryGo fn d b jc draw 1 5 0 Option.none := rfl
    rw [run, show (5 : ℕ) = 4 + 1 from rfl,
      retryGo_fail_mid fn d b jc draw 1 4 0 Option.none e1 h1 (by norm_num),
      show (4 : ℕ) = 3 + 1 from rfl,
      retryGo_fail_mid fn d b jc draw 2 3 _ _ e2 h2 (by norm_num),
      show (3 : ℕ) = 2 + 1 from rfl,
      retryGo_ok_step fn d b jc draw 3 2 _ _ v h3]
    simp [RetryEvent.isCall, List.filter]
  · intro g attempt rem prev le w hok
    exact retryGo_ok_step g d b jc draw attempt rem prev le w hok

/-- C2 witness: an operation failing twice then succeeding with value 42. -/
theorem retry_success_spec_witness :
    ((fun n => if n < 3 then Except.error (Thrown.errorInst "boom")
        else Except.ok (42 : ℕ)) 1 = Except.error (Thrown.errorInst "boom") ∧
     (fun n => if n < 3 then Except.error (Thrown.errorInst "boom")
        else Except.ok (42 : ℕ)) 2 = Except.error (Thrown.errorInst "boom") ∧
     (fun n => if n < 3 then Except.error (Thrown.errorInst "boom")
        else Except.ok (42 : ℕ)) 3 = Except.ok 42) ∧
    (((retry (fun n => if n < 3 then Except.error (Thrown.errorInst "boom")
        else Except.ok (42 : ℕ)) 5 10 "fixed" Option.none
        (fun _ => 0)).result = Except.ok 42 ∧
      ((retry (fun n => if n < 3 then Except.error (Thrown.errorInst "boom")
        else Except.ok (42 : ℕ)) 5 10 "fixed" Option.none
        (fun _ => 0)).events.filter RetryEvent.isCall).length = 3) ∧
     (∀ (g : ℕ → Except Thrown ℕ) (attempt rem : ℕ) (prev : ℚ)
       (le : Option JSError) (w : ℕ), g attempt = Except.ok w →
       retryGo g 10 "fixed" Option.none (fun _ => 0) attempt (rem + 1) prev le
         = RetryTrace.mk (Except.ok w) [RetryEvent.call attempt])) :=
  ⟨⟨by norm_num, by norm_num, by norm_num⟩,
    retry_success_spec _ 42 (Thrown.errorInst "boom") (Thrown.errorInst "boom")
      10 "fixed" Option.none (fun _ => 0)
      (by norm_num) (by norm_num) (by norm_num)⟩

/-- C3: wrapping an always-failing operation with maxAttempts 3 invokes
the observer exactly twice (never on the final failure) and ultimately
rejects with the last captured error; Error instances are captured with
their message and non-Error values are normalized into an Error carrying
their string representation. -/
theorem retry_exhaustion_spec {α : Type} (fn : ℕ → Except Thrown α)
    (e1 e2 e3 : Thrown) (d : ℚ) (b : String) (jc : Option JitterConfig)
    (draw : ℕ → ℚ) (h1 : fn 1 = Except.error e1) (h2 : fn 2 = Except.error e2)
    (h3 : fn 3 = Except.error e3) :
    ((retry fn 3 d b jc draw).events.filter RetryEvent.isObserve).length = 2 ∧
    (retry fn 3 d b jc draw).result = Except.error (some (normalizeError e3)) ∧
    (∀ m, normalizeError (Thrown.errorInst m) = JSError.mk m) ∧
    (∀ s, normalizeError (Thrown.nonError s) = JSError.mk s) := by
  have run : retry fn 3 d b jc draw = retryGo fn d b jc draw 1 3 0 Option.none := rfl
  rw [run, show (3 : ℕ) = 2 + 1 from rfl,
    retryGo_fail_mid fn d b jc draw 1 2 0 Option.none e1 h1 (by norm_num),
    show (2 : ℕ) = 1 + 1 from rfl,
    retryGo_fail_mid fn d b jc draw 2 1 _ _ e2 h2 (by norm_num),
    show (1 : ℕ) = 0 + 1 from rfl,
    retryGo_fail_last fn d b jc draw 3 _ _ e3 h3]
  refine ⟨?_, rfl, fun m => rfl, fun s => rfl⟩
  simp [RetryEvent.isObserve, List.filter]

/-- C3 witness: an operation always rejecting with a non-Error string. -/
theorem retry_exhaustion_spec_witness :
    ((fun _ => Except.error (Thrown.nonError "oops") :
        ℕ → Except Thrown ℕ) 1 = Except.error (Thrown.nonError "oops") ∧
     (fun _ => Except.error (Thrown.nonError "oops") :
        ℕ → Except Thrown ℕ) 2 = Except.error (Thrown.nonError "oops") ∧
     (fun _ => Except.error (Thrown.nonError "oops") :
        ℕ → Except Thrown ℕ) 3 = Except.error (Thrown.nonError "oops")) ∧
    (((retry (fun _ => Except.error (Thrown.nonError "oops") :
        ℕ → Except Thrown ℕ) 3 10 "exponential" Option.none
        (fun _ => 0)).events.filter RetryEvent.isObserve).length = 2 ∧
     (retry (fun _ => Except.error (Thrown.nonError "oops") :
        ℕ → Except Thrown ℕ) 3 10 "exponential" Option.none
        (fun _ => 0)).result
        = Except.error (some (normalizeError (Thrown.nonError "oops"))) ∧
     (∀ m, normalizeError (Thrown.errorInst m) = JSError.mk m) ∧
     (∀ s, normalizeError (Thrown.nonError s) = JSError.mk s)) :=
  ⟨⟨rfl, rfl, rfl⟩,
    retry_exhaustion_spec _ (Thrown.nonError "oops") (Thrown.nonError "oops")
      (Thrown.nonError "oops") 10 "exponential" Option.none (fun _ => 0)
      rfl rfl rfl⟩

/-- C5: on a failed non-final attempt the loop computes the base wait via
calculateDelay, the additive jitter via applyJitter from (base wait,
config, previous jitter delay, draw), records the observer notification
with (error, attempt index, base wait + jitter) before the sleep for the
same total, and carries the jitter amount forward as the next previous
jitter delay; an absent config or type none yields jitter 0; retry seeds
the previous jitter delay at 0 and the captured error as unset. -/
theorem retry_wait_composition_spec {α : Type} (fn : ℕ → Except Thrown α)
    (d : ℚ) (b : String) (jc : Option JitterConfig) (draw : ℕ → ℚ)
    (attempt rem : ℕ) (prev : ℚ) (le : Option JSError) (e : Thrown)
    (hfail : fn attempt = Except.error e) (hrem : rem ≠ 0) :
    (retryGo fn d b jc draw attempt (rem + 1) prev le
      = RetryTrace.mk
          (retryGo fn d b jc draw (attempt + 1) rem
            (applyJitter (calculateDelay d attempt b) jc prev (draw attempt))
            (some (normalizeError e))).result
          (RetryEvent.call attempt ::
            RetryEvent.observe (normalizeError e) attempt
              (calculateDelay d attempt b +
                applyJitter (calculateDelay d attempt b) jc prev (draw attempt)) ::
            RetryEvent.sleep
              (calculateDelay d attempt b +
                applyJitter (calculateDelay d attempt b) jc prev (draw attempt)) ::
            (retryGo fn d b jc draw (attempt + 1) rem
              (applyJitter (calculateDelay d attempt b) jc prev (draw attempt))
              (some (normalizeError e))).events)) ∧
    (∀ w p r : ℚ, applyJitter w Option.none p r = 0 ∧
      applyJitter w (some JitterConfig.none) p r = 0 ∧
      w + applyJitter w Option.none p r = w) ∧
    (∀ (g : ℕ → Except Thrown α) (m : ℤ),
      retry g m d b jc draw = retryGo g d b jc draw 1 m.toNat 0 Option.none) := by
  refine ⟨retryGo_fail_mid fn d b jc draw attempt rem prev le e hfail hrem, ?_, ?_⟩
  · intro w p r
    exact ⟨rfl, rfl, by simp [applyJitter]⟩
  · intro g m
    rfl

/-- C5 witness: a failing first attempt of two, with equal jitter. -/
theorem retry_wait_composition_spec_witness :
    ((fun _ => Except.error (Thrown.errorInst "err") :
        ℕ → Except Thrown ℕ) 1 = Except.error (Thrown.errorInst "err") ∧
      (1 : ℕ) ≠ 0) ∧
    ((retryGo (fun _ => Except.error (Thrown.errorInst "err") :
        ℕ → Except Thrown ℕ) 100 "exponential" (some JitterConfig.equal)
        (fun _ => 1/2) 1 (1 + 1) 0 Option.none
      = RetryTrace.mk
          (retryGo (fun _ => Except.error (Thrown.errorInst "err") :
            ℕ → Except Thrown ℕ) 100 "exponential" (some JitterConfig.equal)
            (fun _ => 1/2) (1 + 1) 1
            (applyJitter (calculateDelay 100 1 "exponential")
              (some JitterConfig.equal) 0 ((fun _ : ℕ => (1 : ℚ)/2) 1))
            (some (normalizeError (Thrown.errorInst "err")))).result
          (RetryEvent.call 1 ::
            RetryEvent.observe (normalizeError (Thrown.errorInst "err")) 1
              (calculateDelay 100 1 "exponential" +
                applyJitter (calculateDelay 100 1 "exponential")
                  (some JitterConfig.equal) 0 ((fun _ : ℕ => (1 : ℚ)/2) 1)) ::
            RetryEvent.sleep
              (calculateDelay 100 1 "exponential" +
                applyJitter (calculateDelay 100 1 "exponential")
                  (some JitterConfig.equal) 0 ((fun _ : ℕ => (1 : ℚ)/2) 1)) ::
            (retryGo (fun _ => Except.error (Thrown.errorInst "err") :
              ℕ → Except Thrown ℕ) 100 "exponential" (some JitterConfig.equal)
              (fun _ => 1/2) (1 + 1) 1
              (applyJitter (calculateDelay 100 1 "exponential")
                (some JitterConfig.equal) 0 ((fun _ : ℕ => (1 : ℚ)/2) 1))
              (some (normalizeError (Thrown.errorInst "err")))).events)) ∧
     (∀ w p r : ℚ, applyJitter w Option.none p r = 0 ∧
       applyJitter w (some JitterConfig.none) p r = 0 ∧
       w + applyJitter w Option.none p r = w) ∧
     (∀ (g : ℕ → Except Thrown ℕ) (m : ℤ),
       retry g m 100 "exponential" (some JitterConfig.equal) (fun _ => 1/2)
         = retryGo g 100 "exponential" (some JitterConfig.equal)
             (fun _ => 1/2) 1 m.toNat 0 Option.none)) :=
  ⟨⟨rfl, by norm_num⟩,
    retry_wait_composition_spec _ 100 "exponential" (some JitterConfig.equal)
      (fun _ => 1/2) 1 1 0 Option.none (Thrown.errorInst "err")
      rfl (by norm_num)⟩

/-- C10: retry never validates maxAttempts; when it is zero or negative
the loop body never runs, the operation is never invoked (no events at
all), and the wrapper rethrows the uninitialized captured error, modelled
as Except.error Option.none (the JS code throws undefined, not an Error
object). -/
theorem retry_nonpositive_maxAttempts {α : Type} (fn : ℕ → Except Thrown α)
    (m : ℤ) (d : ℚ) (b : String) (jc : Option JitterConfig) (draw : ℕ → ℚ)
    (hm : m ≤ 0) :
    retry fn m d b jc draw = RetryTrace.mk (Except.error Option.none) [] := by
  have hz : m.toNat = 0 := Int.toNat_of_nonpos hm
  rw [retry, hz]
  rfl

/-- C10 witness at maxAttempts = -1. -/
theorem retry_nonpositive_maxAttempts_witness :
    (-1 : ℤ) ≤ 0 ∧
    retry (fun _ => Except.ok (0 : ℕ)) (-1) 10 "fixed" Option.none (fun _ => 0)
      = RetryTrace.mk (Except.error Option.none) [] :=
  ⟨by norm_num,
    retry_nonpositive_maxAttempts _ (-1) 10 "fixed" Option.none (fun _ => 0)
      (by norm_num)⟩

/-- C9 witness at b = 1000, a = 1200 (amount exceeding base). -/
theorem calculateFixedJitter_spec_witness :
    ((0 : ℚ) ≤ 1000 ∧ (0 : ℚ) ≤ 1200) ∧
    (calculateFixedJitter 1000 1200 = max 0 (1000 - 1200) ∧
     (0 : ℚ) ≤ calculateFixedJitter 1000 1200 ∧
     calculateFixedJitter 1000 1200 ≤ 1000) :=
  ⟨⟨by norm_num, by norm_num⟩,
    calculateFixedJitter_spec 1000 1200 (by norm_num) (by norm_num)⟩

end Jitterbug
